import Mathlib

/- Shallow embedding of the wneessen/argon2 Go repository: the Settings codec
(settings.go), the envelope engine Derive/Salt/Key/Validate (argon2.go) and the
SQL storage adapter Scan/Value (sql.go).  Bytes are modelled as Nat (values kept
below 256 by construction or hypothesis), byte slices as List Nat, uint32
arithmetic with explicit % 2 ^ 32, and a Go runtime panic as the value none of
an Option result. -/

/-- Go constant SerializedSettingsLength (also named SerializedSize), the fixed
length in bytes of a serialized Settings header. -/
def serializedSettingsLength : Nat := 18

/-- Go struct Settings.  Memory, Time, SaltLength and KeyLength are uint32
fields (values < 2 ^ 32) and Threads is a uint8 field (value < 256); the Go
typing invariants are carried as hypotheses of the theorems below. -/
structure Settings where
  memory : Nat
  time : Nat
  threads : Nat
  saltLength : Nat
  keyLength : Nat
deriving DecidableEq, Repr

/-- binary.LittleEndian.PutUint32: the four little-endian bytes of v. -/
def putUint32 (v : Nat) : List Nat :=
  [v % 256, v / 256 % 256, v / 65536 % 256, v / 16777216 % 256]

/-- binary.LittleEndian.PutUint16: the two little-endian bytes of v. -/
def putUint16 (v : Nat) : List Nat :=
  [v % 256, v / 256 % 256]

/-- binary.LittleEndian.Uint32(p[i:i+4]). -/
def getUint32At (p : List Nat) (i : Nat) : Nat :=
  p.getD i 0 + 256 * p.getD (i + 1) 0 + 65536 * p.getD (i + 2) 0 +
    16777216 * p.getD (i + 3) 0

/-- binary.LittleEndian.Uint16(p[i:i+2]). -/
def getUint16At (p : List Nat) (i : Nat) : Nat :=
  p.getD i 0 + 256 * p.getD (i + 1) 0

/-- Settings.Serialize (settings.go): Memory, Time, Threads (widened to a
16-bit slot), SaltLength, KeyLength, all little-endian. -/
def Settings.serialize (s : Settings) : List Nat :=
  putUint32 s.memory ++ putUint32 s.time ++ putUint16 s.threads ++
    putUint32 s.saltLength ++ putUint32 s.keyLength

/-- SettingsFromBytes (settings.go).  The Threads field is read as a uint16 and
truncated to uint8 (% 256).  Every caller in the repository hands this function
a slice of at least 18 bytes. -/
def settingsFromBytes (p : List Nat) : Settings :=
  { memory := getUint32At p 0
    time := getUint32At p 4
    threads := getUint16At p 8 % 256
    saltLength := getUint32At p 10
    keyLength := getUint32At p 14 }

/-- DefaultSettings (settings.go). -/
def defaultSettings : Settings :=
  { memory := 128 * 1024, time := 3, threads := 4, saltLength := 32, keyLength := 32 }

theorem serialize_length (s : Settings) : s.serialize.length = serializedSettingsLength := by
  simp [Settings.serialize, putUint32, putUint16, serializedSettingsLength]

theorem uint32_le_decomp (v : Nat) (h : v < 2 ^ 32) :
    v % 256 + 256 * (v / 256 % 256) + 65536 * (v / 65536 % 256) +
      16777216 * (v / 16777216 % 256) = v := by
  have h1 : v / 65536 = v / 256 / 256 := by
    rw [Nat.div_div_eq_div_mul]
  have h2 : v / 16777216 = v / 256 / 256 / 256 := by
    rw [Nat.div_div_eq_div_mul, Nat.div_div_eq_div_mul]
  rw [h1, h2]
  omega

/-- Codec round-trip helper: deserializing a serialized header recovers the
Settings value, given the Go typing invariants on the fields. -/
theorem settingsFromBytes_serialize (s : Settings) (hm : s.memory < 2 ^ 32)
    (ht : s.time < 2 ^ 32) (hth : s.threads < 256) (hsl : s.saltLength < 2 ^ 32)
    (hkl : s.keyLength < 2 ^ 32) : settingsFromBytes s.serialize = s := by
  cases s with
  | mk m t th sl kl =>
    simp only [settingsFromBytes, Settings.serialize, putUint32, putUint16, getUint32At,
      getUint16At, List.cons_append, List.nil_append, List.getD_cons_zero,
      List.getD_cons_succ, Settings.mk.injEq]
    have hc : th < 256 := hth
    exact ⟨uint32_le_decomp m hm, uint32_le_decomp t ht, by omega,
      uint32_le_decomp sl hsl, uint32_le_decomp kl hkl⟩

/-- C4: for every Parameters value with uint32 memoryCost, timeCost, saltLength,
keyLength and uint8 parallelism, Deserialize (Serialize p) equals p
field-for-field. -/
theorem C4_codec_roundtrip (s : Settings) (hm : s.memory < 2 ^ 32)
    (ht : s.time < 2 ^ 32) (hth : s.threads < 256) (hsl : s.saltLength < 2 ^ 32)
    (hkl : s.keyLength < 2 ^ 32) : settingsFromBytes s.serialize = s :=
  settingsFromBytes_serialize s hm ht hth hsl hkl

/-- C4 witness: the round-trip evaluated at the default settings. -/
theorem C4_codec_roundtrip_witness : settingsFromBytes defaultSettings.serialize = defaultSettings :=
  C4_codec_roundtrip defaultSettings (by decide) (by decide) (by decide) (by decide) (by decide)

/-- C9: Serialize yields exactly 18 bytes for every Settings value, the 16-bit
parallelism slot has a zero high byte for every uint8 Threads value, and the
default settings serialize to the exact 18-byte sequence
00 00 02 00 03 00 00 00 04 00 20 00 00 00 20 00 00 00. -/
theorem C9_serialize_layout :
    (∀ s : Settings, s.serialize.length = 18) ∧
    (∀ s : Settings, s.threads < 256 → s.serialize.getD 9 0 = 0) ∧
    defaultSettings.serialize =
      [0x00, 0x00, 0x02, 0x00, 0x03, 0x00, 0x00, 0x00, 0x04, 0x00,
       0x20, 0x00, 0x00, 0x00, 0x20, 0x00, 0x00, 0x00] := by
  refine ⟨fun s => ?_, fun s h => ?_, by decide⟩
  · simp [Settings.serialize, putUint32, putUint16]
  · simp only [Settings.serialize, putUint32, putUint16, List.cons_append, List.nil_append,
      List.getD_cons_zero, List.getD_cons_succ]
    omega

/-- C9 witness: the high-byte-zero part evaluated at the default settings. -/
theorem C9_serialize_layout_witness : defaultSettings.serialize.getD 9 0 = 0 :=
  C9_serialize_layout.2.1 defaultSettings (by decide)

/-- Go slice expression a[i:j]: some slice when the bounds are valid, none for
the out-of-range runtime panic. -/
def goSlice (a : List Nat) (i j : Nat) : Option (List Nat) :=
  if i ≤ j ∧ j ≤ a.length then some ((a.drop i).take (j - i)) else none

/-- Go builtin copy(dst, src): dst with its first min(len src, len dst) bytes
replaced by the corresponding bytes of src. -/
def goCopy (dst src : List Nat) : List Nat :=
  src.take (min src.length dst.length) ++ dst.drop (min src.length dst.length)

/-- copy(dst[off:], src) for off ≤ len dst. -/
def goCopyFrom (dst : List Nat) (off : Nat) (src : List Nat) : List Nat :=
  dst.take off ++ goCopy (dst.drop off) src

/-- io.ReadFull(rand.Reader, buf) on a fresh zero buffer of length n: the n
bytes read on success, the untouched zero buffer when the random source fails
(rand n = none).  A well-formed source returns exactly n bytes; the take and
padding only normalize the length for ill-formed oracles. -/
def readFull (rand : Nat → Option (List Nat)) (n : Nat) : List Nat :=
  match rand n with
  | some bs => bs.take n ++ List.replicate (n - bs.length) 0
  | none => List.replicate n 0

/-- subtle.ConstantTimeCompare: 1 when the two byte sequences are equal, 0 on
any content or length mismatch. -/
def constantTimeCompare (x y : List Nat) : Nat :=
  if x = y then 1 else 0

/-- One invocation of the Argon2id KDF collaborator argon2.IDKey(password,
salt, time, memory, threads, keyLength). -/
structure KDFCall where
  password : List Nat
  salt : List Nat
  time : Nat
  memory : Nat
  threads : Nat
  keyLength : Nat
deriving DecidableEq, Repr

/-- Argon2.Validate (argon2.go), instrumented: the list of KDF collaborator
invocations it performs, and its boolean result (none for a runtime panic).
kdf is the KDF collaborator, rand the secure random source.

In the first fallback the Go code allocates a zeroed buffer of length
18 + int(DefaultSettings.SaltLength+DefaultSettings.KeyLength), copies the
18-byte DefaultSettings.Serialize() over its start and reads random bytes into
the rest, which is the append written here.  In the second fallback it
allocates a zeroed buffer of length 18 + int(SaltLength+KeyLength) (a uint32
sum that can wrap), copies that new buffer's own first 18 bytes onto
themselves (a no-op on zeros, since data was just reassigned) and reads random
bytes into the rest. -/
def validateInstr (kdf : KDFCall → List Nat) (rand : Nat → Option (List Nat))
    (password : List Nat) (a : List Nat) : List KDFCall × Option Bool :=
  let data0 := a
  let data1 :=
    if data0.length < serializedSettingsLength then
      defaultSettings.serialize ++
        readFull rand ((defaultSettings.saltLength + defaultSettings.keyLength) % 2 ^ 32)
    else data0
  let settings := settingsFromBytes (data1.take serializedSettingsLength)
  let tailLen := (settings.saltLength + settings.keyLength) % 2 ^ 32
  let data2 :=
    if data1.length ≠ serializedSettingsLength + tailLen then
      List.replicate serializedSettingsLength 0 ++ readFull rand tailLen
    else data1
  match goSlice data2 serializedSettingsLength (serializedSettingsLength + settings.saltLength) with
  | none => ([], none)
  | some salt =>
    match goSlice data2 (serializedSettingsLength + settings.saltLength)
        (serializedSettingsLength + tailLen) with
    | none => ([], none)
    | some storedKey =>
      let call : KDFCall :=
        ⟨password, salt, settings.time, settings.memory, settings.threads, settings.keyLength⟩
      ([call], some (decide (constantTimeCompare storedKey (kdf call) = 1)))

/-- Outcome of Derive: an envelope, the random-salt error return, or a Go
runtime panic. -/
inductive DeriveRes where
  | ok (envelope : List Nat)
  | saltErr
  | crash
deriving DecidableEq, Repr

/-- Derive (argon2.go), instrumented: the byte counts requested from the
secure random source, the KDF collaborator invocations, and the result.
The final copy writes the key into hash[18+int(SaltLength) : hashSize]; that
slice expression panics when its lower bound exceeds hashSize, which happens
exactly when the uint32 sum SaltLength+KeyLength wraps. -/
def deriveInstr (kdf : KDFCall → List Nat) (rand : Nat → Option (List Nat))
    (password : List Nat) (s : Settings) : List Nat × List KDFCall × DeriveRes :=
  match rand s.saltLength with
  | none => ([s.saltLength], [], .saltErr)
  | some bs =>
    let salt := bs.take s.saltLength ++ List.replicate (s.saltLength - bs.length) 0
    let hashSize := serializedSettingsLength + (s.saltLength + s.keyLength) % 2 ^ 32
    let hash1 := goCopy (List.replicate hashSize 0) s.serialize
    let hash2 := goCopyFrom hash1 serializedSettingsLength salt
    let call : KDFCall := ⟨password, salt, s.time, s.memory, s.threads, s.keyLength⟩
    if serializedSettingsLength + s.saltLength ≤ hashSize then
      ([s.saltLength], [call],
        .ok (hash2.take (serializedSettingsLength + s.saltLength) ++
          goCopy ((hash2.take hashSize).drop (serializedSettingsLength + s.saltLength))
            (kdf call) ++
          hash2.drop hashSize))
    else ([s.saltLength], [call], .crash)

/-- Argon2.Salt (argon2.go): empty result below 18 bytes, otherwise the slice
data[18 : 18+int(SaltLength)] (none for the runtime panic when that slice is
out of range). -/
def saltOf (a : List Nat) : Option (List Nat) :=
  if a.length < serializedSettingsLength then some []
  else
    goSlice a serializedSettingsLength
      (serializedSettingsLength + (settingsFromBytes (a.take serializedSettingsLength)).saltLength)

/-- Argon2.Key (argon2.go): empty result below 18 bytes, otherwise the slice
data[18+int(SaltLength) : 18+int(SaltLength+KeyLength)] with the wrapping
uint32 sum in the upper bound (none for the runtime panic). -/
def keyOf (a : List Nat) : Option (List Nat) :=
  if a.length < serializedSettingsLength then some []
  else
    let s := settingsFromBytes (a.take serializedSettingsLength)
    goSlice a (serializedSettingsLength + s.saltLength)
      (serializedSettingsLength + (s.saltLength + s.keyLength) % 2 ^ 32)

/-- A concrete deterministic KDF collaborator honouring the output-length
contract, used to instantiate witnesses. -/
def kdfConst : KDFCall → List Nat := fun c => List.replicate c.keyLength 1

/-- A concrete always-succeeding random source, used to instantiate witnesses. -/
def randConst : Nat → Option (List Nat) := fun n => some (List.replicate n 7)

/-- The always-failing random source. -/
def randFail : Nat → Option (List Nat) := fun _ => none

theorem readFull_length (rand : Nat → Option (List Nat)) (n : Nat) :
    (readFull rand n).length = n := by
  unfold readFull
  cases h : rand n with
  | none => simp
  | some bs =>
    simp [List.length_take]
    omega

theorem goCopy_of_le (dst src : List Nat) (h : src.length ≤ dst.length) :
    goCopy dst src = src ++ dst.drop src.length := by
  unfold goCopy
  rw [Nat.min_eq_left h, List.take_length]

theorem goCopy_length (dst src : List Nat) : (goCopy dst src).length = dst.length := by
  unfold goCopy
  simp [List.length_take, List.length_drop]

theorem deriveInstr_ok (kdf : KDFCall → List Nat) (rand : Nat → Option (List Nat))
    (pw : List Nat) (s : Settings) (bs : List Nat)
    (hsum : s.saltLength + s.keyLength < 2 ^ 32)
    (hrand : rand s.saltLength = some bs) (hbs : bs.length = s.saltLength)
    (hkdf : (kdf ⟨pw, bs, s.time, s.memory, s.threads, s.keyLength⟩).length = s.keyLength) :
    deriveInstr kdf rand pw s =
      ([s.saltLength], [⟨pw, bs, s.time, s.memory, s.threads, s.keyLength⟩],
        .ok (s.serialize ++ bs ++ kdf ⟨pw, bs, s.time, s.memory, s.threads, s.keyLength⟩)) := by
  have hmod : (s.saltLength + s.keyLength) % 2 ^ 32 = s.saltLength + s.keyLength :=
    Nat.mod_eq_of_lt hsum
  have hser : s.serialize.length = 18 := serialize_length s
  unfold deriveInstr
  rw [hrand]
  simp only [hmod, serializedSettingsLength]
  have hsalt : bs.take s.saltLength ++ List.replicate (s.saltLength - bs.length) 0 = bs := by
    rw [← hbs, List.take_length, Nat.sub_self, List.replicate_zero, List.append_nil]
  rw [hsalt]
  have h1 : goCopy (List.replicate (18 + (s.saltLength + s.keyLength)) 0) s.serialize =
      s.serialize ++ List.replicate (s.saltLength + s.keyLength) 0 := by
    rw [goCopy_of_le _ _ (by simp [hser])]
    rw [hser, List.drop_replicate]
    norm_num
  rw [h1]
  have h2 : goCopyFrom (s.serialize ++ List.replicate (s.saltLength + s.keyLength) 0) 18 bs =
      s.serialize ++ (bs ++ List.replicate s.keyLength 0) := by
    unfold goCopyFrom
    rw [List.take_left' hser, List.drop_left' hser]
    rw [goCopy_of_le _ _ (by simp; omega)]
    rw [hbs, List.drop_replicate]
    norm_num
  rw [h2]
  rw [if_pos (by omega)]
  have hlen2 : (s.serialize ++ (bs ++ List.replicate s.keyLength 0)).length =
      18 + (s.saltLength + s.keyLength) := by
    simp [hser, hbs]
  have h3 : (s.serialize ++ (bs ++ List.replicate s.keyLength 0)).take (18 + s.saltLength) =
      s.serialize ++ bs := by
    rw [show s.serialize ++ (bs ++ List.replicate s.keyLength 0) =
      (s.serialize ++ bs) ++ List.replicate s.keyLength 0 by simp]
    exact List.take_left' (by simp [hser, hbs])
  have h4 : (s.serialize ++ (bs ++ List.replicate s.keyLength 0)).take
      (18 + (s.saltLength + s.keyLength)) = s.serialize ++ (bs ++ List.replicate s.keyLength 0) :=
    List.take_of_length_le (by rw [hlen2])
  have h5 : (s.serialize ++ (bs ++ List.replicate s.keyLength 0)).drop
      (18 + (s.saltLength + s.keyLength)) = [] :=
    List.drop_eq_nil_of_le (by rw [hlen2])
  rw [h3, h4, h5]
  have h6 : (s.serialize ++ (bs ++ List.replicate s.keyLength 0)).drop (18 + s.saltLength) =
      List.replicate s.keyLength 0 := by
    rw [show s.serialize ++ (bs ++ List.replicate s.keyLength 0) =
      (s.serialize ++ bs) ++ List.replicate s.keyLength 0 by simp]
    exact List.drop_left' (by simp [hser, hbs])
  rw [h6]
  rw [goCopy_of_le _ _ (by simp [hkdf])]
  rw [hkdf, List.drop_replicate, Nat.sub_self, List.replicate_zero]
  simp

theorem deriveInstr_crash (kdf : KDFCall → List Nat) (rand : Nat → Option (List Nat))
    (pw : List Nat) (s : Settings) (bs : List Nat)
    (hrand : rand s.saltLength = some bs)
    (hover : (s.saltLength + s.keyLength) % 2 ^ 32 < s.saltLength) :
    (deriveInstr kdf rand pw s).2.2 = .crash := by
  unfold deriveInstr
  rw [hrand]
  simp only [serializedSettingsLength]
  rw [if_neg (by omega)]

/-- Validate on a structurally well-formed envelope header ++ salt ++ key with
in-range settings: no fallback fires, and the stored key is compared against
the KDF output for the parsed settings and stored salt. -/
theorem validateInstr_wellformed (kdf : KDFCall → List Nat) (rand : Nat → Option (List Nat))
    (pw : List Nat) (s : Settings) (salt key : List Nat)
    (hm : s.memory < 2 ^ 32) (ht : s.time < 2 ^ 32) (hth : s.threads < 256)
    (hsl : s.saltLength < 2 ^ 32) (hkl : s.keyLength < 2 ^ 32)
    (hsum : s.saltLength + s.keyLength < 2 ^ 32)
    (hsalt : salt.length = s.saltLength) (hkey : key.length = s.keyLength) :
    validateInstr kdf rand pw (s.serialize ++ salt ++ key) =
      ([⟨pw, salt, s.time, s.memory, s.threads, s.keyLength⟩],
        some (decide (constantTimeCompare key
          (kdf ⟨pw, salt, s.time, s.memory, s.threads, s.keyLength⟩) = 1))) := by
  have hser : s.serialize.length = 18 := serialize_length s
  have hlen : (s.serialize ++ salt ++ key).length = 18 + (s.saltLength + s.keyLength) := by
    simp [hser, hsalt, hkey]
  have hmod : (s.saltLength + s.keyLength) % 2 ^ 32 = s.saltLength + s.keyLength :=
    Nat.mod_eq_of_lt hsum
  have htake : List.take 18 (s.serialize ++ salt ++ key) = s.serialize := by
    rw [List.append_assoc]
    exact List.take_left' hser
  have hlt : ¬ ((s.serialize ++ salt ++ key).length < 18) := by omega
  have hslice1 : goSlice (s.serialize ++ salt ++ key) 18 (18 + s.saltLength) = some salt := by
    unfold goSlice
    rw [if_pos (by omega)]
    rw [List.append_assoc, List.drop_left' hser]
    congr 1
    rw [Nat.add_sub_cancel_left]
    exact List.take_left' hsalt
  have hslice2 : goSlice (s.serialize ++ salt ++ key) (18 + s.saltLength)
      (18 + (s.saltLength + s.keyLength)) = some key := by
    unfold goSlice
    rw [if_pos (by omega)]
    have hd : (s.serialize ++ salt ++ key).drop (18 + s.saltLength) = key :=
      List.drop_left' (by simp [hser, hsalt])
    rw [hd]
    congr 1
    exact List.take_of_length_le (by omega)
  unfold validateInstr
  simp only [serializedSettingsLength, if_neg hlt]
  rw [htake, settingsFromBytes_serialize s hm ht hth hsl hkl]
  have hne : ¬ ((s.serialize ++ salt ++ key).length ≠
      18 + (s.saltLength + s.keyLength)) := by omega
  simp only [hmod, if_neg hne, hslice1, hslice2]

/-- Validate on input shorter than the header: the default-parameter fallback
fires, and the KDF is invoked once with the default cost parameters and a
32-byte synthesized salt, compared against the synthesized 32-byte key. -/
theorem validateInstr_short (kdf : KDFCall → List Nat) (rand : Nat → Option (List Nat))
    (pw : List Nat) (a : List Nat) (h : a.length < 18) :
    validateInstr kdf rand pw a =
      ([⟨pw, (readFull rand 64).take 32, 3, 131072, 4, 32⟩],
        some (decide (constantTimeCompare ((readFull rand 64).drop 32)
          (kdf ⟨pw, (readFull rand 64).take 32, 3, 131072, 4, 32⟩) = 1))) := by
  have hr : (readFull rand 64).length = 64 := readFull_length rand 64
  have hdser : defaultSettings.serialize.length = 18 := serialize_length defaultSettings
  have hlen1 : (defaultSettings.serialize ++ readFull rand 64).length = 82 := by
    simp [hdser, hr]
  have hsl1 : goSlice (defaultSettings.serialize ++ readFull rand 64) 18 (18 + 32) =
      some ((readFull rand 64).take 32) := by
    unfold goSlice
    rw [if_pos (by omega)]
    rw [List.drop_left' hdser]
  have hsl2 : goSlice (defaultSettings.serialize ++ readFull rand 64) (18 + 32) (18 + 64) =
      some ((readFull rand 64).drop 32) := by
    unfold goSlice
    rw [if_pos (by omega)]
    rw [show (18 + 32 : Nat) = defaultSettings.serialize.length + 32 by rw [hdser]]
    rw [List.drop_append 32]
    have hd32 : ((readFull rand 64).drop 32).length = 32 := by simp [hr]
    rw [show 18 + 64 - (defaultSettings.serialize.length + 32) = 32 by rw [hdser]]
    rw [List.take_of_length_le (by rw [hd32])]
  unfold validateInstr
  simp only [serializedSettingsLength, if_pos h]
  rw [show (defaultSettings.saltLength + defaultSettings.keyLength) % 2 ^ 32 = 64 from by decide]
  rw [List.take_left' hdser]
  rw [show settingsFromBytes defaultSettings.serialize = defaultSettings from by decide]
  have hne : ¬ ((defaultSettings.serialize ++ readFull rand 64).length ≠
      18 + (defaultSettings.saltLength + defaultSettings.keyLength) % 2 ^ 32) := by
    rw [hlen1]
    decide
  simp only [if_neg hne]
  rw [show (defaultSettings.saltLength + defaultSettings.keyLength) % 2 ^ 32 = 64 from by decide]
  rw [show defaultSettings.saltLength = 32 from rfl]
  simp only [hsl1, hsl2]
  rfl

/-- Validate on input of at least 18 bytes whose total length disagrees with
the header-implied length (wrap-free case): the resynthesis fallback fires and
the KDF is invoked once, with the parsed cost parameters, a synthesized salt
of the parsed salt length, compared against a synthesized key of the parsed
key length. -/
theorem validateInstr_mismatch (kdf : KDFCall → List Nat) (rand : Nat → Option (List Nat))
    (pw : List Nat) (a : List Nat) (h18 : ¬ a.length < 18)
    (hsum : (settingsFromBytes (a.take 18)).saltLength +
      (settingsFromBytes (a.take 18)).keyLength < 2 ^ 32)
    (hne : a.length ≠ 18 + ((settingsFromBytes (a.take 18)).saltLength +
      (settingsFromBytes (a.take 18)).keyLength)) :
    validateInstr kdf rand pw a =
      ([⟨pw,
          (readFull rand ((settingsFromBytes (a.take 18)).saltLength +
            (settingsFromBytes (a.take 18)).keyLength)).take
              (settingsFromBytes (a.take 18)).saltLength,
          (settingsFromBytes (a.take 18)).time, (settingsFromBytes (a.take 18)).memory,
          (settingsFromBytes (a.take 18)).threads, (settingsFromBytes (a.take 18)).keyLength⟩],
        some (decide (constantTimeCompare
          ((readFull rand ((settingsFromBytes (a.take 18)).saltLength +
            (settingsFromBytes (a.take 18)).keyLength)).drop
              (settingsFromBytes (a.take 18)).saltLength)
          (kdf ⟨pw,
            (readFull rand ((settingsFromBytes (a.take 18)).saltLength +
              (settingsFromBytes (a.take 18)).keyLength)).take
                (settingsFromBytes (a.take 18)).saltLength,
            (settingsFromBytes (a.take 18)).time, (settingsFromBytes (a.take 18)).memory,
            (settingsFromBytes (a.take 18)).threads,
            (settingsFromBytes (a.take 18)).keyLength⟩) = 1))) := by
  have hmod : ((settingsFromBytes (a.take 18)).saltLength +
      (settingsFromBytes (a.take 18)).keyLength) % 2 ^ 32 =
      (settingsFromBytes (a.take 18)).saltLength +
        (settingsFromBytes (a.take 18)).keyLength := Nat.mod_eq_of_lt hsum
  have hrep : (List.replicate 18 0 : List Nat).length = 18 := by simp
  have hr : (readFull rand ((settingsFromBytes (a.take 18)).saltLength +
      (settingsFromBytes (a.take 18)).keyLength)).length =
      (settingsFromBytes (a.take 18)).saltLength +
        (settingsFromBytes (a.take 18)).keyLength := readFull_length rand _
  have hd2len : (List.replicate 18 0 ++ readFull rand
      ((settingsFromBytes (a.take 18)).saltLength +
        (settingsFromBytes (a.take 18)).keyLength)).length =
      18 + ((settingsFromBytes (a.take 18)).saltLength +
        (settingsFromBytes (a.take 18)).keyLength) := by
    rw [List.length_append, hrep, hr]
  have hsl1 : goSlice (List.replicate 18 0 ++ readFull rand
      ((settingsFromBytes (a.take 18)).saltLength +
        (settingsFromBytes (a.take 18)).keyLength)) 18
      (18 + (settingsFromBytes (a.take 18)).saltLength) =
      some ((readFull rand ((settingsFromBytes (a.take 18)).saltLength +
        (settingsFromBytes (a.take 18)).keyLength)).take
          (settingsFromBytes (a.take 18)).saltLength) := by
    unfold goSlice
    rw [if_pos (by omega)]
    rw [List.drop_left' hrep, Nat.add_sub_cancel_left]
  have hsl2 : goSlice (List.replicate 18 0 ++ readFull rand
      ((settingsFromBytes (a.take 18)).saltLength +
        (settingsFromBytes (a.take 18)).keyLength))
      (18 + (settingsFromBytes (a.take 18)).saltLength)
      (18 + ((settingsFromBytes (a.take 18)).saltLength +
        (settingsFromBytes (a.take 18)).keyLength)) =
      some ((readFull rand ((settingsFromBytes (a.take 18)).saltLength +
        (settingsFromBytes (a.take 18)).keyLength)).drop
          (settingsFromBytes (a.take 18)).saltLength) := by
    unfold goSlice
    rw [if_pos (by omega)]
    rw [show 18 + (settingsFromBytes (a.take 18)).saltLength =
      (List.replicate 18 (0 : Nat)).length + (settingsFromBytes (a.take 18)).saltLength
      from by rw [hrep]]
    rw [List.drop_append]
    have hdk : ((readFull rand ((settingsFromBytes (a.take 18)).saltLength +
        (settingsFromBytes (a.take 18)).keyLength)).drop
          (settingsFromBytes (a.take 18)).saltLength).length =
        (settingsFromBytes (a.take 18)).keyLength := by
      simp [hr]
    rw [List.take_of_length_le (by rw [hdk]; omega)]
  unfold validateInstr
  simp only [serializedSettingsLength, if_neg h18]
  rw [hmod]
  simp only [if_pos hne, hsl1, hsl2]

/-- Whenever Validate completes (returns a boolean rather than panicking), its
trace holds exactly one KDF invocation; when it panics the trace is empty. -/
theorem validateInstr_calls (kdf : KDFCall → List Nat) (rand : Nat → Option (List Nat))
    (pw : List Nat) (a : List Nat) :
    validateInstr kdf rand pw a = ([], none) ∨
    ∃ c b, validateInstr kdf rand pw a = ([c], some b) := by
  simp only [validateInstr]
  split
  · exact Or.inl rfl
  · split
    · exact Or.inl rfl
    · exact Or.inr ⟨_, _, rfl⟩

/-- When the parsed header's uint32 sum saltLength + keyLength wraps below
saltLength, the salt slice upper bound 18 + saltLength exceeds the buffer
length 18 + (saltLength + keyLength) % 2^32, so Validate panics with an empty
KDF trace, on any input of at least 18 bytes. -/
theorem validateInstr_overflow (kdf : KDFCall → List Nat) (rand : Nat → Option (List Nat))
    (pw : List Nat) (a : List Nat) (h18 : ¬ a.length < 18)
    (hover : ((settingsFromBytes (a.take 18)).saltLength +
      (settingsFromBytes (a.take 18)).keyLength) % 2 ^ 32 <
        (settingsFromBytes (a.take 18)).saltLength) :
    validateInstr kdf rand pw a = ([], none) := by
  have hr : (readFull rand (((settingsFromBytes (a.take 18)).saltLength +
      (settingsFromBytes (a.take 18)).keyLength) % 2 ^ 32)).length =
      ((settingsFromBytes (a.take 18)).saltLength +
        (settingsFromBytes (a.take 18)).keyLength) % 2 ^ 32 := readFull_length rand _
  unfold validateInstr
  simp only [serializedSettingsLength, if_neg h18]
  by_cases hc : a.length ≠ 18 + ((settingsFromBytes (a.take 18)).saltLength +
      (settingsFromBytes (a.take 18)).keyLength) % 2 ^ 32
  · simp only [if_pos hc]
    have hgs : goSlice (List.replicate 18 0 ++ readFull rand
        (((settingsFromBytes (a.take 18)).saltLength +
          (settingsFromBytes (a.take 18)).keyLength) % 2 ^ 32)) 18
        (18 + (settingsFromBytes (a.take 18)).saltLength) = none := by
      unfold goSlice
      rw [if_neg ?hb]
      case hb =>
        rw [List.length_append, List.length_replicate, hr]
        omega
    simp only [hgs]
  · simp only [if_neg hc]
    have hgs : goSlice a 18 (18 + (settingsFromBytes (a.take 18)).saltLength) = none := by
      unfold goSlice
      rw [if_neg (by omega)]
    simp only [hgs]

/-- A database value handed to Argon2.Scan: NULL, a string, a byte slice, or
any other (unsupported) driver type. -/
inductive SQLValue where
  | sqlNull
  | sqlString (s : List Nat)
  | sqlBytes (b : List Nat)
  | sqlOther
deriving DecidableEq, Repr

/-- The []byte arm of Argon2.Scan (sql.go); the string arm converts to bytes
and re-enters here.  Result: (error?, new stored envelope); error paths leave
the stored envelope a unchanged.  Note it checks the exact (non-wrapping) sum
int(SaltLength) + int(KeyLength). -/
def scanBytes (a b : List Nat) : Option Unit × List Nat :=
  if b.length = 0 then (none, a)
  else if b.length < serializedSettingsLength then (some (), a)
  else
    if b.length ≠ serializedSettingsLength +
        (settingsFromBytes (b.take serializedSettingsLength)).saltLength +
        (settingsFromBytes (b.take serializedSettingsLength)).keyLength then (some (), a)
    else (none, b)

/-- Argon2.Scan (sql.go). -/
def scan (a : List Nat) (src : SQLValue) : Option Unit × List Nat :=
  match src with
  | .sqlNull => (none, a)
  | .sqlString s => scanBytes a s
  | .sqlBytes b => scanBytes a b
  | .sqlOther => (some (), a)

/-- Argon2.Value (sql.go): the stored bytes, never an error. -/
def valueOf (a : List Nat) : List Nat × Option Unit := (a, none)

/-- C7: Scan of NULL or an empty byte/string value into a fresh (absent)
envelope yields an absent envelope and no error; Scan of an unsupported type
errors; Scan of a nonempty byte value shorter than 18 bytes, or whose length
differs from the header-implied 18 + saltLength + keyLength, errors and leaves
the stored envelope unchanged; Value never errors and maps the absent envelope
to a zero-length byte string. -/
theorem C7_storage_adapter :
    scan [] .sqlNull = (none, []) ∧
    scan [] (.sqlString []) = (none, []) ∧
    scan [] (.sqlBytes []) = (none, []) ∧
    (∀ a : List Nat, scan a .sqlOther = (some (), a)) ∧
    (∀ a b : List Nat, 0 < b.length → b.length < serializedSettingsLength →
      scan a (.sqlBytes b) = (some (), a)) ∧
    (∀ a b : List Nat, serializedSettingsLength ≤ b.length →
      b.length ≠ serializedSettingsLength +
        (settingsFromBytes (b.take serializedSettingsLength)).saltLength +
        (settingsFromBytes (b.take serializedSettingsLength)).keyLength →
      scan a (.sqlBytes b) = (some (), a)) ∧
    (∀ a : List Nat, valueOf a = (a, none)) ∧
    valueOf [] = ([], none) := by
  refine ⟨rfl, rfl, rfl, fun a => rfl, fun a b h0 hlt => ?_, fun a b h18 hne => ?_,
    fun a => rfl, rfl⟩
  · simp only [scan, scanBytes, serializedSettingsLength] at hlt ⊢
    rw [if_neg (by omega), if_pos (by omega)]
  · simp only [scan, scanBytes, serializedSettingsLength] at h18 hne ⊢
    rw [if_neg (by omega), if_neg (by omega), if_pos hne]

/-- C7 witness: the two hypothesis-bearing conjuncts at concrete inputs: a
3-byte value and a 20-byte zero value (whose header implies total length 18). -/
theorem C7_storage_adapter_witness :
    scan [9, 9] (.sqlBytes [1, 2, 3]) = (some (), [9, 9]) ∧
    scan [9, 9] (.sqlBytes (List.replicate 20 0)) = (some (), [9, 9]) :=
  ⟨C7_storage_adapter.2.2.2.2.1 [9, 9] [1, 2, 3] (by decide) (by decide),
   C7_storage_adapter.2.2.2.2.2.1 [9, 9] (List.replicate 20 0) (by decide) (by decide)⟩

/-- An 18-byte envelope that is just a header claiming saltLength = 4294967295
and keyLength = 1: the uint32 sum wraps to 0, so the structural length check
18 = 18 + 0 passes, and the salt slice data[18 : 18 + 4294967295] is out of
range. -/
def overflowHeaderA : List Nat := Settings.serialize ⟨0, 0, 0, 4294967295, 1⟩

/-- C1: the code slips.  Validate on the adversarial header overflowHeaderA
panics (slice bounds out of range) instead of returning false, for every KDF
collaborator, random source and password. -/
theorem C1_validate_panics_on_adversarial_header (kdf : KDFCall → List Nat)
    (rand : Nat → Option (List Nat)) (pw : List Nat) :
    (validateInstr kdf rand pw overflowHeaderA).2 = none := by
  rw [validateInstr_overflow kdf rand pw overflowHeaderA (by decide) (by decide)]

/-- A second overflowing header (saltLength = 4294967294, keyLength = 2). -/
def overflowHeaderB : List Nat := Settings.serialize ⟨0, 0, 0, 4294967294, 2⟩

/-- C2 counterexample: on the adversarial header overflowHeaderB, Validate
performs zero KDF invocations (it panics first), not exactly one. -/
theorem C2_counterexample_zero_calls :
    (validateInstr kdfConst randConst [] overflowHeaderB).1.length = 0 ∧
    (validateInstr kdfConst randConst [] overflowHeaderB).2 = none := by
  rw [validateInstr_overflow kdfConst randConst [] overflowHeaderB (by decide) (by decide)]
  exact ⟨rfl, rfl⟩

/-- C2 (amended): whenever Validate completes without a runtime panic it
invokes the KDF collaborator exactly once, whatever the input shape; and on
input shorter than the 18-byte header the single invocation carries the
default cost parameters (memory 131072, time 3, parallelism 4, key length 32)
and a 32-byte synthesized salt. -/
theorem C2_kdf_invoked_once :
    (∀ (kdf : KDFCall → List Nat) (rand : Nat → Option (List Nat)) (pw a : List Nat),
      (validateInstr kdf rand pw a).2 ≠ none → (validateInstr kdf rand pw a).1.length = 1) ∧
    (∀ (kdf : KDFCall → List Nat) (rand : Nat → Option (List Nat)) (pw a : List Nat),
      a.length < 18 →
        (validateInstr kdf rand pw a).1 =
          [⟨pw, (readFull rand 64).take 32, 3, 131072, 4, 32⟩]) ∧
    (∀ rand : Nat → Option (List Nat), ((readFull rand 64).take 32).length = 32) := by
  refine ⟨fun kdf rand pw a hne => ?_, fun kdf rand pw a h => ?_, fun rand => ?_⟩
  · rcases validateInstr_calls kdf rand pw a with h | ⟨c, b, h⟩
    · rw [h] at hne
      exact absurd rfl hne
    · rw [h]
      rfl
  · rw [validateInstr_short kdf rand pw a h]
  · simp [readFull_length rand 64]

set_option maxRecDepth 16384 in
/-- C2 witness: the amended theorem evaluated on the empty envelope with
concrete collaborators. -/
theorem C2_kdf_invoked_once_witness :
    (validateInstr kdfConst randConst [] []).1.length = 1 ∧
    (validateInstr kdfConst randConst [] []).1 =
      [⟨[], (readFull randConst 64).take 32, 3, 131072, 4, 32⟩] ∧
    ((readFull randConst 64).take 32).length = 32 :=
  ⟨C2_kdf_invoked_once.1 kdfConst randConst [] [] (by decide),
   C2_kdf_invoked_once.2.1 kdfConst randConst [] [] (by decide),
   C2_kdf_invoked_once.2.2 randConst⟩

/-- C3: for every password and Parameters value (Go-typed fields), if the
secure random source succeeds (and honours its length contract) and the KDF
collaborator is a deterministic function returning keyLength bytes, then
Validate accepts the envelope produced by Derive for that same password,
whatever random source the validation call sees. -/
theorem C3_derive_validate_roundtrip (kdf : KDFCall → List Nat)
    (rand rand2 : Nat → Option (List Nat)) (pw : List Nat) (s : Settings) (env : List Nat)
    (hm : s.memory < 2 ^ 32) (ht : s.time < 2 ^ 32) (hth : s.threads < 256)
    (hsl : s.saltLength < 2 ^ 32) (hkl : s.keyLength < 2 ^ 32)
    (hrand : ∀ n bs, rand n = some bs → bs.length = n)
    (hkdf : ∀ c : KDFCall, (kdf c).length = c.keyLength)
    (hok : (deriveInstr kdf rand pw s).2.2 = .ok env) :
    (validateInstr kdf rand2 pw env).2 = some true := by
  cases hr : rand s.saltLength with
  | none =>
    have hd : deriveInstr kdf rand pw s = ([s.saltLength], [], .saltErr) := by
      unfold deriveInstr
      rw [hr]
    rw [hd] at hok
    exact absurd hok (by simp)
  | some bs =>
    have hbs : bs.length = s.saltLength := hrand _ _ hr
    by_cases hsum : s.saltLength + s.keyLength < 2 ^ 32
    · have hde := deriveInstr_ok kdf rand pw s bs hsum hr hbs (hkdf _)
      rw [hde] at hok
      simp only [DeriveRes.ok.injEq] at hok
      subst hok
      rw [validateInstr_wellformed kdf rand2 pw s bs
        (kdf ⟨pw, bs, s.time, s.memory, s.threads, s.keyLength⟩) hm ht hth hsl hkl hsum hbs
        (hkdf _)]
      simp [constantTimeCompare]
    · have hcrash := deriveInstr_crash kdf rand pw s bs hr (by omega)
      rw [hcrash] at hok
      exact absurd hok (by simp)

/-- The envelope Derive produces for password [] and Settings ⟨1, 2, 3, 4, 5⟩
under the concrete collaborators. -/
def envSmall : List Nat :=
  Settings.serialize ⟨1, 2, 3, 4, 5⟩ ++ List.replicate 4 7 ++ List.replicate 5 1

/-- C3 witness: the round-trip evaluated at concrete collaborators and
settings. -/
theorem C3_derive_validate_roundtrip_witness :
    (validateInstr kdfConst randConst [] envSmall).2 = some true :=
  C3_derive_validate_roundtrip kdfConst randConst randConst [] ⟨1, 2, 3, 4, 5⟩ envSmall
    (by decide) (by decide) (by decide) (by decide) (by decide)
    (fun n bs h => by
      simp only [randConst, Option.some.injEq] at h
      rw [← h, List.length_replicate])
    (fun c => by simp [kdfConst])
    (by decide)

/-- Parameters whose uint32 salt+key sum wraps: Derive panics on them. -/
def c5Settings : Settings := ⟨3, 1, 4, 4294967295, 1⟩

/-- C5 counterexample: at c5Settings (saltLength 4294967295, keyLength 1,
allowed by the claim, which admits any uint32 fields) Derive with a succeeding
random source panics instead of returning an envelope of length
18 + saltLength + keyLength. -/
theorem C5_counterexample_derive_crash :
    (deriveInstr kdfConst randConst [] c5Settings).2.2 = DeriveRes.crash := rfl

/-- C5 (amended): for every password and Parameters value whose saltLength +
keyLength sum does not wrap uint32, when the random source succeeds with a
saltLength-byte salt and the KDF collaborator returns keyLength bytes, Derive
returns the envelope Serialize(params) ++ salt ++ kdf-output, of total length
18 + saltLength + keyLength, whose first 18 bytes are the serialized header. -/
theorem C5_derive_envelope_layout (kdf : KDFCall → List Nat)
    (rand : Nat → Option (List Nat)) (pw : List Nat) (s : Settings) (bs : List Nat)
    (hsum : s.saltLength + s.keyLength < 2 ^ 32)
    (hrand : rand s.saltLength = some bs) (hbs : bs.length = s.saltLength)
    (hkdf : (kdf ⟨pw, bs, s.time, s.memory, s.threads, s.keyLength⟩).length = s.keyLength) :
    (deriveInstr kdf rand pw s).2.2 =
      .ok (s.serialize ++ bs ++ kdf ⟨pw, bs, s.time, s.memory, s.threads, s.keyLength⟩) ∧
    (s.serialize ++ bs ++ kdf ⟨pw, bs, s.time, s.memory, s.threads, s.keyLength⟩).length =
      serializedSettingsLength + s.saltLength + s.keyLength ∧
    (s.serialize ++ bs ++ kdf ⟨pw, bs, s.time, s.memory, s.threads, s.keyLength⟩).take
      serializedSettingsLength = s.serialize := by
  have hde := deriveInstr_ok kdf rand pw s bs hsum hrand hbs hkdf
  refine ⟨by rw [hde], ?_, ?_⟩
  · simp only [List.length_append, serialize_length s, hbs, hkdf, serializedSettingsLength]
  · rw [List.append_assoc]
    exact List.take_left' (serialize_length s)

/-- C5 witness: the amended layout evaluated at concrete collaborators and
settings. -/
theorem C5_derive_envelope_layout_witness :
    (deriveInstr kdfConst randConst [] ⟨1, 2, 3, 4, 5⟩).2.2 =
      .ok (Settings.serialize ⟨1, 2, 3, 4, 5⟩ ++ List.replicate 4 7 ++
        kdfConst ⟨[], List.replicate 4 7, 2, 1, 3, 5⟩) ∧
    (Settings.serialize ⟨1, 2, 3, 4, 5⟩ ++ List.replicate 4 7 ++
      kdfConst ⟨[], List.replicate 4 7, 2, 1, 3, 5⟩).length =
      serializedSettingsLength + 4 + 5 ∧
    (Settings.serialize ⟨1, 2, 3, 4, 5⟩ ++ List.replicate 4 7 ++
      kdfConst ⟨[], List.replicate 4 7, 2, 1, 3, 5⟩).take serializedSettingsLength =
      Settings.serialize ⟨1, 2, 3, 4, 5⟩ :=
  C5_derive_envelope_layout kdfConst randConst [] ⟨1, 2, 3, 4, 5⟩ (List.replicate 4 7)
    (by decide) (by decide) (by decide) (by decide)

/-- C6: the code slips.  Salt and Key on an 18-byte envelope consisting of
just the serialized default header (saltLength 32, keyLength 32) panic with a
slice out of range instead of returning a result. -/
theorem C6_accessors_panic_on_short_envelope :
    saltOf defaultSettings.serialize = none ∧ keyOf defaultSettings.serialize = none := by
  decide

/-- C8: Derive reports an error if and only if the secure random source fails
on its single saltLength-byte request; the request trace always holds exactly
that one read (no retries), and on failure no KDF invocation happens and no
envelope is produced. -/
theorem C8_derive_error_iff_rand_failure (kdf : KDFCall → List Nat)
    (rand : Nat → Option (List Nat)) (pw : List Nat) (s : Settings) :
    ((deriveInstr kdf rand pw s).2.2 = .saltErr ↔ rand s.saltLength = none) ∧
    (deriveInstr kdf rand pw s).1 = [s.saltLength] ∧
    (rand s.saltLength = none → deriveInstr kdf rand pw s = ([s.saltLength], [], .saltErr)) := by
  cases hr : rand s.saltLength with
  | none =>
    have hd : deriveInstr kdf rand pw s = ([s.saltLength], [], .saltErr) := by
      unfold deriveInstr
      rw [hr]
    rw [hd]
    simp [hr]
  | some bs =>
    unfold deriveInstr
    rw [hr]
    simp only []
    split
    · simp [hr]
    · simp [hr]

/-- C8 witness: the failure branch evaluated at the failing random source and
default settings: the error return, the single salt request, no KDF call and
no envelope. -/
theorem C8_derive_error_iff_rand_failure_witness :
    deriveInstr kdfConst randFail [] defaultSettings =
      ([defaultSettings.saltLength], [], DeriveRes.saltErr) :=
  (C8_derive_error_iff_rand_failure kdfConst randFail [] defaultSettings).2.2 rfl

/-- A third overflowing header (saltLength = 4294967295, keyLength = 2): the
uint32 sum wraps to 1, so the mismatch fallback fires on this 18-byte input. -/
def overflowHeaderC : List Nat := Settings.serialize ⟨0, 0, 0, 4294967295, 2⟩

/-- C10 counterexample: on the header overflowHeaderC the mismatch fallback
fires (18 differs from 18 + 1), the failing 1-byte random read is silently
swallowed, and then the salt slice data[18 : 18 + 4294967295] panics: Validate
does not complete and return a boolean, refuting the claim as stated. -/
theorem C10_counterexample_panic_after_swallowed_failure :
    validateInstr kdfConst randFail [] overflowHeaderC = ([], none) :=
  validateInstr_overflow kdfConst randFail [] overflowHeaderC (by decide) (by decide)

/-- C10 (amended): with an always-failing random source, Validate completes on
both fallback paths whenever the parsed header is wrap-free, and the
synthesized salt and key filler bytes are then all zeros: on input shorter
than 18 bytes the single KDF call uses a 32-byte zero salt and the stored key
compared is 32 zero bytes; on a structurally inconsistent input whose parsed
uint32 saltLength + keyLength sum does not wrap, the single KDF call uses a
zero salt of the parsed salt length and the compared key is zeros of the
parsed key length.  (On an inconsistent input whose parsed sum wraps, the
failure is still swallowed but Validate then panics at the salt slice and
returns no boolean - see the counterexample above.) -/
theorem C10_rand_failure_swallowed_zero_filler :
    (∀ (kdf : KDFCall → List Nat) (pw a : List Nat), a.length < 18 →
      validateInstr kdf randFail pw a =
        ([⟨pw, List.replicate 32 0, 3, 131072, 4, 32⟩],
          some (decide (constantTimeCompare (List.replicate 32 0)
            (kdf ⟨pw, List.replicate 32 0, 3, 131072, 4, 32⟩) = 1)))) ∧
    (∀ (kdf : KDFCall → List Nat) (pw a : List Nat), ¬ a.length < 18 →
      (settingsFromBytes (a.take 18)).saltLength +
        (settingsFromBytes (a.take 18)).keyLength < 2 ^ 32 →
      a.length ≠ 18 + ((settingsFromBytes (a.take 18)).saltLength +
        (settingsFromBytes (a.take 18)).keyLength) →
      validateInstr kdf randFail pw a =
        ([⟨pw, List.replicate (settingsFromBytes (a.take 18)).saltLength 0,
            (settingsFromBytes (a.take 18)).time, (settingsFromBytes (a.take 18)).memory,
            (settingsFromBytes (a.take 18)).threads, (settingsFromBytes (a.take 18)).keyLength⟩],
          some (decide (constantTimeCompare
            (List.replicate (settingsFromBytes (a.take 18)).keyLength 0)
            (kdf ⟨pw, List.replicate (settingsFromBytes (a.take 18)).saltLength 0,
              (settingsFromBytes (a.take 18)).time, (settingsFromBytes (a.take 18)).memory,
              (settingsFromBytes (a.take 18)).threads,
              (settingsFromBytes (a.take 18)).keyLength⟩) = 1)))) := by
  constructor
  · intro kdf pw a h
    rw [validateInstr_short kdf randFail pw a h]
    have hz : readFull randFail 64 = List.replicate 64 0 := rfl
    rw [hz]
    rw [show (List.replicate 64 (0 : Nat)).take 32 = List.replicate 32 0 from by decide]
    rw [show (List.replicate 64 (0 : Nat)).drop 32 = List.replicate 32 0 from by decide]
  · intro kdf pw a h18 hsum hne
    rw [validateInstr_mismatch kdf randFail pw a h18 hsum hne]
    have hz : readFull randFail ((settingsFromBytes (a.take 18)).saltLength +
        (settingsFromBytes (a.take 18)).keyLength) =
        List.replicate ((settingsFromBytes (a.take 18)).saltLength +
          (settingsFromBytes (a.take 18)).keyLength) 0 := rfl
    rw [hz, List.take_replicate, List.drop_replicate]
    rw [Nat.min_eq_left (Nat.le_add_right _ _), Nat.add_sub_cancel_left]

/-- C10 witness: both fallback paths under the failing random source, on the
empty envelope and on a 19-byte zero envelope. -/
theorem C10_rand_failure_swallowed_zero_filler_witness :
    validateInstr kdfConst randFail [] [] =
      ([⟨[], List.replicate 32 0, 3, 131072, 4, 32⟩],
        some (decide (constantTimeCompare (List.replicate 32 0)
          (kdfConst ⟨[], List.replicate 32 0, 3, 131072, 4, 32⟩) = 1))) ∧
    validateInstr kdfConst randFail [] (List.replicate 19 0) =
      ([⟨[], List.replicate (settingsFromBytes ((List.replicate 19 0).take 18)).saltLength 0,
          (settingsFromBytes ((List.replicate 19 0).take 18)).time,
          (settingsFromBytes ((List.replicate 19 0).take 18)).memory,
          (settingsFromBytes ((List.replicate 19 0).take 18)).threads,
          (settingsFromBytes ((List.replicate 19 0).take 18)).keyLength⟩],
        some (decide (constantTimeCompare
          (List.replicate (settingsFromBytes ((List.replicate 19 0).take 18)).keyLength 0)
          (kdfConst ⟨[],
            List.replicate (settingsFromBytes ((List.replicate 19 0).take 18)).saltLength 0,
            (settingsFromBytes ((List.replicate 19 0).take 18)).time,
            (settingsFromBytes ((List.replicate 19 0).take 18)).memory,
            (settingsFromBytes ((List.replicate 19 0).take 18)).threads,
            (settingsFromBytes ((List.replicate 19 0).take 18)).keyLength⟩) = 1))) :=
  ⟨C10_rand_failure_swallowed_zero_filler.1 kdfConst [] [] (by decide),
   C10_rand_failure_swallowed_zero_filler.2 kdfConst [] (List.replicate 19 0)
     (by decide) (by decide) (by decide)⟩
